import Mathlib

/-!
Shallow embedding of the core mechanisms of the Chat-with-gemini repository:

* the client-side retry/backoff wrapper `fetchDataWithBackoff`
  (src/forntendwebs/src/App.jsx, lines 31-63; the same inline pattern
  appears in the Sidebar component), and
* the server-side D-ID long-poll loop and its surrounding handler
  (src/backend/index.js, POST /api/did, lines 184-232), and
* the Express backend routes over the MongoDB persistence layer
  (src/backend/index.js): auth middleware, session/message/user routes.

Effects are made explicit: the sequence of HTTP responses the network
would deliver becomes a function from attempt index to an outcome, a
sleep becomes a recorded duration, and the database becomes an explicit
state threaded through the request handlers.  JavaScript truthiness on
strings (empty string and null/undefined are falsy) is modelled by
`jsTruthy`.
-/

set_option autoImplicit false

namespace ChatApp

/-- Outcome of one `fetch` call as seen by the client: either a response
with an HTTP status code, or a network-level error (the promise rejects). -/
inductive FetchResult where
  | response (status : Nat)
  | netError
deriving DecidableEq

/-- Errors that `fetchDataWithBackoff` can throw to its caller:
the caught-and-rethrown HTTP-status error built at App.jsx line 47,
the rethrown network error, and the final
"Max retries exceeded for fetch operation." error at line 62. -/
inductive FetchError where
  | httpStatus (status : Nat)
  | network
  | maxRetriesExceeded
deriving DecidableEq

deriving instance DecidableEq for Except

/-- Observable outcome of one run of the executor: the returned status or
thrown error, the number of fetch attempts issued, and the list of backoff
sleep durations in chronological order. -/
structure RunResult where
  result : Except FetchError Nat
  attempts : Nat
  sleeps : List Nat
deriving DecidableEq

/-- Prefix a run with one more attempt that ended in a backoff sleep of
duration d. -/
def RunResult.afterSleep (d : Nat) (r : RunResult) : RunResult :=
  { result := r.result, attempts := r.attempts + 1, sleeps := d :: r.sleeps }

/-- node-fetch res.ok: status in the 2xx range. -/
def resOk (status : Nat) : Bool :=
  200 ≤ status && status < 300

/-- The while loop of fetchDataWithBackoff (App.jsx lines 35-59), recursing
on gas = maxRetries - retries, the number of loop iterations the guard
retries < maxRetries still allows.  responses gives the outcome of the
fetch issued when the counter equals retries; jitter gives the value of
Math.random() * 1000 drawn at that counter value.  Each loop iteration
issues exactly one fetch; a non-ok status that is not 429 throws an
HTTP-status error which the catch block at lines 50-58 catches, rethrowing
it only on the last permitted attempt (retries = maxRetries - 1) and
otherwise sleeping and retrying, exactly like a network error.
Falling out of the loop throws maxRetriesExceeded (line 62). -/
def fetchLoop (responses : Nat → FetchResult) (jitter : Nat → Nat)
    (initialDelay maxRetries : Nat) : Nat → Nat → RunResult
  | _, 0 =>
    { result := Except.error FetchError.maxRetriesExceeded, attempts := 0, sleeps := [] }
  | retries, gas + 1 =>
    match responses retries with
    | FetchResult.response s =>
      if resOk s then
        { result := Except.ok s, attempts := 1, sleeps := [] }
      else if s = 429 then
        RunResult.afterSleep (initialDelay * 2 ^ retries + jitter retries)
          (fetchLoop responses jitter initialDelay maxRetries (retries + 1) gas)
      else if retries = maxRetries - 1 then
        { result := Except.error (FetchError.httpStatus s), attempts := 1, sleeps := [] }
      else
        RunResult.afterSleep (initialDelay * 2 ^ retries + jitter retries)
          (fetchLoop responses jitter initialDelay maxRetries (retries + 1) gas)
    | FetchResult.netError =>
      if retries = maxRetries - 1 then
        { result := Except.error FetchError.network, attempts := 1, sleeps := [] }
      else
        RunResult.afterSleep (initialDelay * 2 ^ retries + jitter retries)
          (fetchLoop responses jitter initialDelay maxRetries (retries + 1) gas)

/-- fetchDataWithBackoff (App.jsx lines 31-63).  The source hardcodes
maxRetries = 3 and initialDelay = 1000 and defaults retries to 0; they are
parameters here so the claims can name them explicitly. -/
def fetchDataWithBackoff (responses : Nat → FetchResult) (jitter : Nat → Nat)
    (initialDelay maxRetries retries : Nat) : RunResult :=
  fetchLoop responses jitter initialDelay maxRetries retries (maxRetries - retries)

/-- Every attempt returns HTTP 500. -/
def resp500 : Nat → FetchResult := fun _ => FetchResult.response 500

/-- Injected response sequence 429, 429, 200 (200 from the third attempt on). -/
def respSeq429x2 : Nat → FetchResult := fun n =>
  if n < 2 then FetchResult.response 429 else FetchResult.response 200

/-- Every attempt returns HTTP 429. -/
def resp429 : Nat → FetchResult := fun _ => FetchResult.response 429

/-- Zero jitter, used for concrete runs. -/
def zeroJitter : Nat → Nat := fun _ => 0

/-- JavaScript truthiness of a possibly-absent string value: null/undefined
and the empty string are falsy, every other string is truthy. -/
def jsTruthy : Option String → Bool
  | none => false
  | some s => !s.isEmpty

/-- Observable outcome of a bounded prefix of the D-ID poll loop: the value
of videoUrl on exit (none when the loop is still running after the allotted
iterations), the number of status polls issued, and the sleep durations. -/
structure PollRun where
  result : Option String
  polls : Nat
  sleeps : List Nat
deriving DecidableEq

/-- The while loop of POST /api/did (index.js lines 217-225): while videoUrl
is falsy, sleep 2000, poll, set videoUrl to the result_url field of the
reply.  responses gives the result_url field of the i-th poll reply (none
when absent or null).  The source loop has no bound; gas is the number of
iterations the scheduler is observed for, and a none result means the loop
was still running after gas iterations. -/
def didPollLoop (responses : Nat → Option String) : Nat → Nat → PollRun
  | 0, _ => { result := none, polls := 0, sleeps := [] }
  | gas + 1, i =>
    if jsTruthy (responses i) then
      { result := responses i, polls := 1, sleeps := [2000] }
    else
      let rest := didPollLoop responses gas (i + 1)
      { result := rest.result, polls := rest.polls + 1, sleeps := 2000 :: rest.sleeps }

/-- Observable outcome of the POST /api/did handler: HTTP status of the
backend response (0 when the poll loop is still running after the allotted
iterations, since the source loop never responds in that case), the
videoUrl sent back, polls issued and sleeps performed. -/
structure DidResult where
  status : Nat
  videoUrl : Option String
  polls : Nat
  sleeps : List Nat
deriving DecidableEq

/-- POST /api/did (index.js lines 184-232): destructure id from the
creation reply; if id is falsy respond 500 "Failed to start D-ID
generation" without polling; otherwise run the poll loop and respond with
the videoUrl it produced. -/
def didHandler (createId : Option String) (responses : Nat → Option String)
    (gas : Nat) : DidResult :=
  if jsTruthy createId then
    let r := didPollLoop responses gas 0
    match r.result with
    | some url => { status := 200, videoUrl := some url, polls := r.polls, sleeps := r.sleeps }
    | none => { status := 0, videoUrl := none, polls := r.polls, sleeps := r.sleeps }
  else
    { status := 500, videoUrl := none, polls := 0, sleeps := [] }

/-- Poll replies null, null, result_url "X" (and null afterwards). -/
def pollSeqX : Nat → Option String := fun i => if i = 2 then some "X" else none

/-! ### Backend persistence model

The MongoDB collections (models/User.js, models/Session.js,
models/Message.js) become explicit lists; a Mongo-generated session _id
becomes the counter nextId.  Fields with no bearing on the claims
(timestamps, message _ids) are omitted. -/

/-- A Session document: _id, owner userId, title. -/
structure SessionRec where
  sid : Nat
  userId : String
  title : String
deriving DecidableEq

/-- A Message document: owning session _id, role, text. -/
structure MessageRec where
  sessionId : Nat
  role : String
  text : String
deriving DecidableEq

/-- The database state: the User, Session and Message collections, plus
the counter from which fresh session _ids are drawn. -/
structure Db where
  users : List String
  sessions : List SessionRec
  messages : List MessageRec
  nextId : Nat
deriving DecidableEq

/-- An HTTP response from the backend, observed only through its status. -/
structure Response where
  status : Nat
deriving DecidableEq

/-- The routes registered in index.js, with the parts of the request each
handler reads.  Option String models a possibly-absent (or otherwise falsy)
body field. -/
inductive Route where
  | postSessions (title : Option String)
  | getSessions
  | getSessionMessages (sid : Nat)
  | postSessionMessage (sid : Nat) (role text : String)
  | getChats
  | patchSession (sid : Nat) (title : Option String)
  | deleteSession (sid : Nat)
  | postGemini (prompt : String)
  | postUsers (bodyUserId : Option String)
  | postSpeak (text : String)
  | postDid (text : String)
deriving DecidableEq

/-- The route handlers of index.js, already past the auth middleware, so
uid is the authenticated userId.  The proxy routes (/api/gemini,
/api/speak, /api/did) only talk to external services and never touch the
database; their upstream interaction is modelled separately by didHandler
and fetchDataWithBackoff, so here they are recorded as responding without
a state change.  GET /chats references the undefined binding Chat, so its
try/catch always answers 500. -/
def routeHandler (db : Db) (uid : String) : Route → Response × Db
  | Route.postSessions title =>
    let t := match title with
      | none => "New Chat"
      | some s => if s.isEmpty then "New Chat" else s
    ({ status := 200 },
     { db with sessions := db.sessions ++ [{ sid := db.nextId, userId := uid, title := t }],
               nextId := db.nextId + 1 })
  | Route.getSessions => ({ status := 200 }, db)
  | Route.getSessionMessages _ => ({ status := 200 }, db)
  | Route.postSessionMessage sid role text =>
    ({ status := 200 },
     { db with messages := db.messages ++ [{ sessionId := sid, role := role, text := text }] })
  | Route.getChats => ({ status := 500 }, db)
  | Route.patchSession sid title =>
    match (db.sessions.find? (fun s => s.sid = sid && s.userId = uid)) with
    | none => ({ status := 404 }, db)
    | some _ =>
      match title with
      | none => ({ status := 200 }, db)
      | some t =>
        ({ status := 200 },
         { db with sessions := (db.sessions.map
             (fun s => if s.sid = sid && s.userId = uid then { s with title := t } else s)) })
  | Route.deleteSession sid =>
    let db1 := { db with messages := db.messages.filter (fun m => m.sessionId != sid) }
    match (db1.sessions.find? (fun s => s.sid = sid && s.userId = uid)) with
    | none => ({ status := 404 }, db1)
    | some _ =>
      ({ status := 204 },
       { db1 with sessions := db1.sessions.filter (fun s => !(s.sid = sid && s.userId = uid)) })
  | Route.postGemini _ => ({ status := 200 }, db)
  | Route.postUsers bodyUserId =>
    match bodyUserId with
    | none => ({ status := 400 }, db)
    | some u =>
      if u.isEmpty then ({ status := 400 }, db)
      else if u ∈ db.users then ({ status := 409 }, db)
      else ({ status := 201 }, { db with users := db.users ++ [u] })
  | Route.postSpeak _ => ({ status := 200 }, db)
  | Route.postDid _ => ({ status := 200 }, db)

/-- One request through the app: the auth middleware of index.js lines
30-37 runs first for every route.  A falsy x-user-id header answers 401
before any handler; otherwise the User record is created lazily when no
record with that userId exists, and the route handler runs. -/
def handleRequest (db : Db) (header : Option String) (r : Route) : Response × Db :=
  match header with
  | none => ({ status := 401 }, db)
  | some uid =>
    if uid.isEmpty then ({ status := 401 }, db)
    else
      let db1 := if uid ∈ db.users then db else { db with users := db.users ++ [uid] }
      routeHandler db1 uid r

/-- A sequence of requests, each with its own header and route, run in
order against the database. -/
def runRequests (db : Db) (reqs : List (Option String × Route)) : Db :=
  reqs.foldl (fun d hr => (handleRequest d hr.1 hr.2).2) db

/-- A database holding one message of session 5 setting up a concrete
delete-session run: no session document exists, so the delete answers 404. -/
def dbOrphan : Db :=
  { users := [], sessions := [],
    messages := [{ sessionId := 5, role := "user", text := "hi" }], nextId := 0 }

/-- A database with the single registered user a. -/
def dbOneUser : Db :=
  { users := ["a"], sessions := [], messages := [], nextId := 0 }

/-- A concrete request sequence: user b creates a session, then user a
registers itself again through POST /api/users. -/
def reqsSample : List (Option String × Route) :=
  [(some "b", Route.postSessions none), (some "a", Route.postUsers (some "a"))]

/-! ### Helper lemmas -/

/-- Appending one attempt ending in a sleep adds one to the attempt count. -/
theorem afterSleep_attempts (d : Nat) (r : RunResult) :
    (RunResult.afterSleep d r).attempts = r.attempts + 1 := rfl

/-- The retry loop issues at most one fetch per remaining loop iteration. -/
theorem fetchLoop_attempts_le (responses : Nat → FetchResult) (jitter : Nat → Nat)
    (initialDelay maxRetries : Nat) :
    ∀ gas retries,
      (fetchLoop responses jitter initialDelay maxRetries retries gas).attempts ≤ gas := by
  intro gas
  induction gas with
  | zero => intro retries; exact Nat.le_refl 0
  | succ g ih =>
    intro retries
    have hrec := ih (retries + 1)
    simp only [fetchLoop]
    cases responses retries with
    | response s =>
      by_cases h1 : resOk s
      · simp [h1]
      · by_cases h2 : s = 429
        · subst h2
          simp [show resOk 429 = false from rfl, afterSleep_attempts]
          omega
        · by_cases h3 : retries = maxRetries - 1
          · simp [h1, h2, h3]
          · simp [h1, h2, h3, afterSleep_attempts]; omega
    | netError =>
      by_cases h3 : retries = maxRetries - 1
      · simp [h3]
      · simp [h3, afterSleep_attempts]; omega

/-- An element list with one fresh element appended stays duplicate-free. -/
theorem nodup_push {l : List String} {u : String} (h : l.Nodup) (hu : u ∉ l) :
    (l ++ [u]).Nodup := by
  simp [List.nodup_append, h, hu]

/-- A route handler leaves the User collection unchanged, except that
POST /api/users may append one identifier that was not yet present. -/
theorem routeHandler_users (db : Db) (uid : String) (r : Route) :
    ((routeHandler db uid r).2).users = db.users ∨
    ∃ u, u ∉ db.users ∧ ((routeHandler db uid r).2).users = db.users ++ [u] := by
  cases r with
  | postSessions title => left; rfl
  | getSessions => left; rfl
  | getSessionMessages sid => left; rfl
  | postSessionMessage sid role text => left; rfl
  | getChats => left; rfl
  | patchSession sid title =>
    simp only [routeHandler]
    split
    · left; rfl
    · cases title with
      | none => left; rfl
      | some t => left; rfl
  | deleteSession sid =>
    simp only [routeHandler]
    split
    · left; rfl
    · left; rfl
  | postGemini p => left; rfl
  | postUsers b =>
    cases b with
    | none => left; rfl
    | some u =>
      simp only [routeHandler]
      by_cases he : u.isEmpty
      · simp [he]
      · by_cases hm : u ∈ db.users
        · simp [he, hm]
        · right; exact ⟨u, hm, by simp [he, hm]⟩
  | postSpeak t => left; rfl
  | postDid t => left; rfl

/-- Handling any single request preserves freedom from duplicate User
records: the middleware inserts only identifiers that are absent, and so
does POST /api/users. -/
theorem handleRequest_users_nodup (db : Db) (header : Option String) (r : Route)
    (h : db.users.Nodup) : ((handleRequest db header r).2).users.Nodup := by
  cases header with
  | none => simpa [handleRequest]
  | some uid =>
    by_cases he : uid.isEmpty
    · simpa [handleRequest, he]
    · simp only [handleRequest, he, Bool.false_eq_true, if_false]
      by_cases hm : uid ∈ db.users
      · simp only [hm, if_true]
        rcases routeHandler_users db uid r with heq | ⟨u, hu, heq⟩
        · rw [heq]; exact h
        · rw [heq]; exact nodup_push h hu
      · simp only [hm, if_false]
        set db1 : Db := { db with users := db.users ++ [uid] } with hdb1
        have h1 : db1.users.Nodup := nodup_push h hm
        rcases routeHandler_users db1 uid r with heq | ⟨u, hu, heq⟩
        · rw [heq]; exact h1
        · rw [heq]; exact nodup_push h1 hu

/-! ### Claims -/

/-- Claim C1, counterexample: a request whose every attempt returns HTTP
500 is NOT raised immediately on the first attempt.  The thrown
HTTP-status error is caught by the catch block of fetchDataWithBackoff,
so with maxRetries = 3 the executor issues 3 attempts and performs 2
backoff sleeps before the error reaches the caller. -/
theorem c1_counterexample :
    (fetchDataWithBackoff resp500 zeroJitter 1000 3 0).attempts = 3 ∧
    (fetchDataWithBackoff resp500 zeroJitter 1000 3 0).attempts ≠ 1 ∧
    (fetchDataWithBackoff resp500 zeroJitter 1000 3 0).sleeps = [1000, 2000] ∧
    (fetchDataWithBackoff resp500 zeroJitter 1000 3 0).sleeps ≠ [] ∧
    (fetchDataWithBackoff resp500 zeroJitter 1000 3 0).result
      = Except.error (FetchError.httpStatus 500) :=
  ⟨rfl, by decide, rfl, by decide, rfl⟩

/-- Claim C1, amended: a non-success, non-rate-limit status such as 500 is
caught as a generic failure and retried with backoff; the executor raises
the hard failure with the status code attached only on the final permitted
attempt, so a request answered 500 on every attempt with maxRetries = 3
performs 3 attempts and 2 backoff sleeps before raising. -/
theorem c1_amended (jitter : Nat → Nat) :
    fetchDataWithBackoff resp500 jitter 1000 3 0 =
      { result := Except.error (FetchError.httpStatus 500), attempts := 3,
        sleeps := [1000 * 2 ^ 0 + jitter 0, 1000 * 2 ^ 1 + jitter 1] } := rfl

/-- Claim C2: with injected responses 429, 429, 200 and maxRetries = 3 the
executor returns the 200 response and sleeps exactly twice, the n-th sleep
lying in the interval from initialDelay times 2 to the n onward for less
than 1000 further units, for any jitter draw bounded by 1000. -/
theorem c2_backoff (jitter : Nat → Nat) (hj : ∀ n, jitter n < 1000) :
    (fetchDataWithBackoff respSeq429x2 jitter 1000 3 0).result = Except.ok 200 ∧
    (fetchDataWithBackoff respSeq429x2 jitter 1000 3 0).sleeps
      = [1000 * 2 ^ 0 + jitter 0, 1000 * 2 ^ 1 + jitter 1] ∧
    1000 * 2 ^ 0 ≤ 1000 * 2 ^ 0 + jitter 0 ∧
    1000 * 2 ^ 0 + jitter 0 < 1000 * 2 ^ 0 + 1000 ∧
    1000 * 2 ^ 1 ≤ 1000 * 2 ^ 1 + jitter 1 ∧
    1000 * 2 ^ 1 + jitter 1 < 1000 * 2 ^ 1 + 1000 :=
  ⟨rfl, rfl, Nat.le_add_right _ _, Nat.add_lt_add_left (hj 0) _,
   Nat.le_add_right _ _, Nat.add_lt_add_left (hj 1) _⟩

/-- Claim C2, witness at the zero jitter draw. -/
theorem c2_backoff_witness :
    (∀ n, zeroJitter n < 1000) ∧
    ((fetchDataWithBackoff respSeq429x2 zeroJitter 1000 3 0).result = Except.ok 200 ∧
     (fetchDataWithBackoff respSeq429x2 zeroJitter 1000 3 0).sleeps
       = [1000 * 2 ^ 0 + zeroJitter 0, 1000 * 2 ^ 1 + zeroJitter 1] ∧
     1000 * 2 ^ 0 ≤ 1000 * 2 ^ 0 + zeroJitter 0 ∧
     1000 * 2 ^ 0 + zeroJitter 0 < 1000 * 2 ^ 0 + 1000 ∧
     1000 * 2 ^ 1 ≤ 1000 * 2 ^ 1 + zeroJitter 1 ∧
     1000 * 2 ^ 1 + zeroJitter 1 < 1000 * 2 ^ 1 + 1000) :=
  ⟨fun _ => by norm_num [zeroJitter], c2_backoff zeroJitter (fun _ => by norm_num [zeroJitter])⟩

/-- Claim C3, counterexample: for poll replies null, null, result_url X
the handler does return X, but it sleeps three times, not twice — the
loop sleeps before every poll, including the first. -/
theorem c3_counterexample :
    didHandler (some "job-1") pollSeqX 10 =
      { status := 200, videoUrl := some "X", polls := 3,
        sleeps := [2000, 2000, 2000] } ∧
    (didHandler (some "job-1") pollSeqX 10).sleeps ≠ [2000, 2000] :=
  ⟨rfl, by decide⟩

/-- Claim C3, amended: for the poll-reply sequence null, null,
result_url X the poller waits exactly three times at the fixed
2000-time-unit interval — once before each of the three polls, the first
included — and then returns X to the caller, whatever iteration budget
past three the loop is observed for. -/
theorem c3_amended (gas : Nat) :
    didHandler (some "job-1") pollSeqX (gas + 3) =
      { status := 200, videoUrl := some "X", polls := 3,
        sleeps := [2000, 2000, 2000] } := rfl

/-- Claim C4: when no poll reply ever carries a non-null result_url, the
loop never exits: after any number of allotted iterations it is still
running, has polled once per iteration, and has slept the fixed interval
once per iteration. -/
theorem c4_unbounded_poll (responses : Nat → Option String)
    (h : ∀ n, responses n = none) (gas : Nat) :
    didPollLoop responses gas 0 =
      { result := none, polls := gas, sleeps := List.replicate gas 2000 } := by
  have key : ∀ g i, didPollLoop responses g i =
      { result := none, polls := g, sleeps := List.replicate g 2000 } := by
    intro g
    induction g with
    | zero => intro i; rfl
    | succ g ih =>
      intro i
      simp [didPollLoop, h i, jsTruthy, ih (i + 1), List.replicate_succ]
  exact key gas 0

/-- Claim C4, witness: with every reply null and an iteration budget of
five, the loop is still running after five polls and five sleeps. -/
theorem c4_unbounded_poll_witness :
    (∀ n : Nat, (fun _ : Nat => (none : Option String)) n = none) ∧
    didPollLoop (fun _ : Nat => (none : Option String)) 5 0 =
      { result := none, polls := 5, sleeps := List.replicate 5 2000 } :=
  ⟨fun _ => rfl, c4_unbounded_poll (fun _ : Nat => (none : Option String)) (fun _ => rfl) 5⟩

/-- Claim C5, counterexample: when every attempt answers 429 and
maxRetries = 3 the executor does raise after exactly 3 attempts, but the
error the caller receives is the generic max-retries-exceeded error thrown
after the loop, not an error carrying the last encountered 429; and the
loop sleeps a third time after the final 429 before raising. -/
theorem c5_counterexample :
    (fetchDataWithBackoff resp429 zeroJitter 1000 3 0).attempts = 3 ∧
    (fetchDataWithBackoff resp429 zeroJitter 1000 3 0).result
      = Except.error FetchError.maxRetriesExceeded ∧
    (fetchDataWithBackoff resp429 zeroJitter 1000 3 0).result
      ≠ Except.error (FetchError.httpStatus 429) ∧
    (fetchDataWithBackoff resp429 zeroJitter 1000 3 0).sleeps.length = 3 :=
  ⟨rfl, rfl, by decide, rfl⟩

/-- Claim C5, amended: when every attempt answers 429 and maxRetries = 3
the executor raises after exactly 3 attempts without succeeding, the
caller receiving the generic max-retries-exceeded error, after a backoff
sleep following each of the three 429 responses, the last included. -/
theorem c5_amended (jitter : Nat → Nat) :
    fetchDataWithBackoff resp429 jitter 1000 3 0 =
      { result := Except.error FetchError.maxRetriesExceeded, attempts := 3,
        sleeps := [1000 * 2 ^ 0 + jitter 0, 1000 * 2 ^ 1 + jitter 1,
                   1000 * 2 ^ 2 + jitter 2] } := rfl

/-- Claim C6: when the job-creation reply carries no (truthy) id, the
POST /api/did handler answers 500 at once, issuing zero polls and zero
sleeps. -/
theorem c6_submission_error (createId : Option String)
    (responses : Nat → Option String) (gas : Nat)
    (h : jsTruthy createId = false) :
    didHandler createId responses gas =
      { status := 500, videoUrl := none, polls := 0, sleeps := [] } := by
  simp [didHandler, h]

/-- Claim C6, witness: an id-less creation reply, with polls that would
answer immediately, still produces the 500 with zero polls. -/
theorem c6_submission_error_witness :
    jsTruthy none = false ∧
    didHandler none (fun _ => some "X") 7 =
      { status := 500, videoUrl := none, polls := 0, sleeps := [] } :=
  ⟨rfl, c6_submission_error none (fun _ => some "X") 7 rfl⟩

/-- Claim C7: whatever statuses and network errors the attempts meet, the
executor with maxRetries = 3 issues at most maxRetries + 1 fetches before
terminating — the loop in fact issues at most 3. -/
theorem c7_attempts_bound (responses : Nat → FetchResult) (jitter : Nat → Nat) :
    (fetchDataWithBackoff responses jitter 1000 3 0).attempts ≤ 3 + 1 := by
  have h := fetchLoop_attempts_le responses jitter 1000 3 3 0
  exact Nat.le_trans h (by omega)

/-- Claim C8: a request on any route with no x-user-id header is answered
401 by the auth middleware, and the database is untouched — no route
handler runs. -/
theorem c8_auth_required (db : Db) (r : Route) :
    handleRequest db none r = ({ status := 401 }, db) := rfl

/-- Claim C9: starting from a database free of duplicate User records,
any sequence of requests leaves it free of duplicates — the middleware
creates a User only when none exists — and explicitly registering an
identifier that already exists answers 409 Conflict and leaves the number
of records of that identifier unchanged. -/
theorem c9_unique_users (db : Db) (reqs : List (Option String × Route))
    (h : db.users.Nodup) :
    (runRequests db reqs).users.Nodup ∧
    (∀ hdr uid, hdr.isEmpty = false → uid.isEmpty = false → uid ∈ db.users →
      (handleRequest db (some hdr) (Route.postUsers (some uid))).1.status = 409 ∧
      ((handleRequest db (some hdr) (Route.postUsers (some uid))).2).users.count uid
        = db.users.count uid) := by
  constructor
  · induction reqs generalizing db with
    | nil => exact h
    | cons hd tl ih =>
      exact ih _ (handleRequest_users_nodup db hd.1 hd.2 h)
  · intro hdr uid hhdr huid hmem
    have hdb1 : ∀ dbx : Db, uid ∈ dbx.users →
        (routeHandler dbx hdr (Route.postUsers (some uid))).1.status = 409 ∧
        (routeHandler dbx hdr (Route.postUsers (some uid))).2.users = dbx.users := by
      intro dbx hx
      simp [routeHandler, huid, hx]
    simp only [handleRequest, hhdr, Bool.false_eq_true, if_false]
    by_cases hm : hdr ∈ db.users
    · simp only [hm, if_true]
      exact ⟨(hdb1 db hmem).1, by rw [(hdb1 db hmem).2]⟩
    · simp only [hm, if_false]
      set db1 : Db := { db with users := db.users ++ [hdr] } with hdef
      have hmem1 : uid ∈ db1.users := by
        simp [hdef]
        exact Or.inl hmem
      refine ⟨(hdb1 db1 hmem1).1, ?_⟩
      rw [(hdb1 db1 hmem1).2]
      have hne : hdr ≠ uid := fun he => hm (he ▸ hmem)
      have hne2 : uid ≠ hdr := Ne.symm hne
      simp [hdef, List.count_append, List.count_singleton, hne, hne2]

/-- Claim C9, witness: the empty-then-one-user database, a session
creation by a fresh user followed by a duplicate registration. -/
theorem c9_unique_users_witness :
    dbOneUser.users.Nodup ∧
    ((runRequests dbOneUser reqsSample).users.Nodup ∧
     (∀ hdr uid, hdr.isEmpty = false → uid.isEmpty = false → uid ∈ dbOneUser.users →
       (handleRequest dbOneUser (some hdr) (Route.postUsers (some uid))).1.status = 409 ∧
       ((handleRequest dbOneUser (some hdr) (Route.postUsers (some uid))).2).users.count uid
         = dbOneUser.users.count uid)) :=
  ⟨by decide, c9_unique_users dbOneUser reqsSample (by decide)⟩

/-- Claim C10: DELETE /api/sessions/:sid removes every message of the
session before looking the session up, so whenever it answers 404 Session
not found, the messages of that session identifier are already gone from
the resulting state — the error path is not state-preserving. -/
theorem c10_delete_messages_first (db : Db) (uid : String) (sid : Nat)
    (h : (handleRequest db (some uid) (Route.deleteSession sid)).1.status = 404) :
    ((handleRequest db (some uid) (Route.deleteSession sid)).2).messages
      = db.messages.filter (fun m => m.sessionId != sid) ∧
    ∀ m ∈ ((handleRequest db (some uid) (Route.deleteSession sid)).2).messages,
      m.sessionId ≠ sid := by
  by_cases he : uid.isEmpty
  · exact absurd h (by simp [handleRequest, he])
  · have hmsg : ((handleRequest db (some uid) (Route.deleteSession sid)).2).messages
        = db.messages.filter (fun m => m.sessionId != sid) := by
      simp only [handleRequest, he, Bool.false_eq_true, if_false]
      by_cases hm : uid ∈ db.users
      · simp only [hm, if_true, routeHandler]
        split
        · rfl
        · rfl
      · simp only [hm, if_false, routeHandler]
        split
        · rfl
        · rfl
    refine ⟨hmsg, ?_⟩
    intro m hmem
    rw [hmsg] at hmem
    have := (List.mem_filter.mp hmem).2
    simpa using this

/-- Claim C10, witness: a database holding one message of session 5 and no
session document; the delete answers 404 yet the message is gone. -/
theorem c10_delete_messages_first_witness :
    (handleRequest dbOrphan (some "u") (Route.deleteSession 5)).1.status = 404 ∧
    (((handleRequest dbOrphan (some "u") (Route.deleteSession 5)).2).messages
       = dbOrphan.messages.filter (fun m => m.sessionId != 5) ∧
     ∀ m ∈ ((handleRequest dbOrphan (some "u") (Route.deleteSession 5)).2).messages,
       m.sessionId ≠ 5) :=
  ⟨by decide, c10_delete_messages_first dbOrphan "u" 5 (by decide)⟩

end ChatApp
